import Mathlib

/-!
# OpenCLTest2: host program of the vector-addition sample

A shallow embedding of `OpenCLTest2/main.cpp`: the routine `main` and its two
helpers `printError` and `printBuildLog`.

The OpenCL runtime is an external collaborator.  Its header `<CL/cl.h>` is not
part of the repository, so the numeric values of the status macros are a
parameter (`CLHeader`); the results of the API calls are a parameter as well
(`Api`).  A run of `main` is a pure function of both and yields the exit code,
the text written to standard output and standard error, the sequence of API
calls, and the accesses made to the local log buffer.

The `float` values of the host arrays are rationals: every arithmetic operation
is the exact operation followed by rounding to IEEE-754 binary32 (round to
nearest, ties to even); a result that is not a finite number is `none`.  The
`%f` conversion of the C library is a parameter.
-/

namespace OpenCLTest2

/-! ## Constants of `main.cpp` -/

/-- Source constant `static const size_t NumElements = 10000;`. -/
def NumElements : Nat := 10000

/-- Source constant `static const int MaxDevices = 10;`. -/
def MaxDevices : Nat := 10

/-- Source constant `static const int MaxLogSize = 5000;`. -/
def MaxLogSize : Nat := 5000

/-! ## The status macros of `<CL/cl.h>` -/

/-- The value of every status macro that `main.cpp` mentions.  The header that
defines them is external to the repository, hence the values are left open. -/
structure CLHeader where
  CL_SUCCESS : Int
  CL_DEVICE_NOT_FOUND : Int
  CL_COMPILER_NOT_AVAILABLE : Int
  CL_MEM_OBJECT_ALLOCATION_FAILURE : Int
  CL_OUT_OF_RESOURCES : Int
  CL_OUT_OF_HOST_MEMORY : Int
  CL_PROFILING_INFO_NOT_AVAILABLE : Int
  CL_MEM_COPY_OVERLAP : Int
  CL_IMAGE_FORMAT_MISMATCH : Int
  CL_IMAGE_FORMAT_NOT_SUPPORTED : Int
  CL_BUILD_PROGRAM_FAILURE : Int
  CL_MAP_FAILURE : Int
  CL_INVALID_VALUE : Int
  CL_INVALID_DEVICE_TYPE : Int
  CL_INVALID_PLATFORM : Int
  CL_INVALID_DEVICE : Int
  CL_INVALID_CONTEXT : Int
  CL_INVALID_QUEUE_PROPERTIES : Int
  CL_INVALID_COMMAND_QUEUE : Int
  CL_INVALID_HOST_PTR : Int
  CL_INVALID_MEM_OBJECT : Int
  CL_INVALID_IMAGE_FORMAT_DESCRIPTOR : Int
  CL_INVALID_IMAGE_SIZE : Int
  CL_INVALID_SAMPLER : Int
  CL_INVALID_BINARY : Int
  CL_INVALID_BUILD_OPTIONS : Int
  CL_INVALID_PROGRAM : Int
  CL_INVALID_PROGRAM_EXECUTABLE : Int
  CL_INVALID_KERNEL_NAME : Int
  CL_INVALID_KERNEL_DEFINITION : Int
  CL_INVALID_KERNEL : Int
  CL_INVALID_ARG_INDEX : Int
  CL_INVALID_ARG_VALUE : Int
  CL_INVALID_ARG_SIZE : Int
  CL_INVALID_KERNEL_ARGS : Int
  CL_INVALID_WORK_DIMENSION : Int
  CL_INVALID_WORK_GROUP_SIZE : Int
  CL_INVALID_WORK_ITEM_SIZE : Int
  CL_INVALID_GLOBAL_OFFSET : Int
  CL_INVALID_EVENT_WAIT_LIST : Int
  CL_INVALID_EVENT : Int
  CL_INVALID_OPERATION : Int
  CL_INVALID_GL_OBJECT : Int
  CL_INVALID_BUFFER_SIZE : Int
  CL_INVALID_MIP_LEVEL : Int

/-- The values the Khronos OpenCL header assigns to the status macros; used as
the concrete header wherever a run is evaluated. -/
def khronosHeader : CLHeader where
  CL_SUCCESS := 0
  CL_DEVICE_NOT_FOUND := -1
  CL_COMPILER_NOT_AVAILABLE := -3
  CL_MEM_OBJECT_ALLOCATION_FAILURE := -4
  CL_OUT_OF_RESOURCES := -5
  CL_OUT_OF_HOST_MEMORY := -6
  CL_PROFILING_INFO_NOT_AVAILABLE := -7
  CL_MEM_COPY_OVERLAP := -8
  CL_IMAGE_FORMAT_MISMATCH := -9
  CL_IMAGE_FORMAT_NOT_SUPPORTED := -10
  CL_BUILD_PROGRAM_FAILURE := -11
  CL_MAP_FAILURE := -12
  CL_INVALID_VALUE := -30
  CL_INVALID_DEVICE_TYPE := -31
  CL_INVALID_PLATFORM := -32
  CL_INVALID_DEVICE := -33
  CL_INVALID_CONTEXT := -34
  CL_INVALID_QUEUE_PROPERTIES := -35
  CL_INVALID_COMMAND_QUEUE := -36
  CL_INVALID_HOST_PTR := -37
  CL_INVALID_MEM_OBJECT := -38
  CL_INVALID_IMAGE_FORMAT_DESCRIPTOR := -39
  CL_INVALID_IMAGE_SIZE := -40
  CL_INVALID_SAMPLER := -41
  CL_INVALID_BINARY := -42
  CL_INVALID_BUILD_OPTIONS := -43
  CL_INVALID_PROGRAM := -44
  CL_INVALID_PROGRAM_EXECUTABLE := -45
  CL_INVALID_KERNEL_NAME := -46
  CL_INVALID_KERNEL_DEFINITION := -47
  CL_INVALID_KERNEL := -48
  CL_INVALID_ARG_INDEX := -49
  CL_INVALID_ARG_VALUE := -50
  CL_INVALID_ARG_SIZE := -51
  CL_INVALID_KERNEL_ARGS := -52
  CL_INVALID_WORK_DIMENSION := -53
  CL_INVALID_WORK_GROUP_SIZE := -54
  CL_INVALID_WORK_ITEM_SIZE := -55
  CL_INVALID_GLOBAL_OFFSET := -56
  CL_INVALID_EVENT_WAIT_LIST := -57
  CL_INVALID_EVENT := -58
  CL_INVALID_OPERATION := -59
  CL_INVALID_GL_OBJECT := -60
  CL_INVALID_BUFFER_SIZE := -61
  CL_INVALID_MIP_LEVEL := -62

/-! ## `printError` -/

/-- The arms of the `switch (err)` of `printError`, in source order: the case
label and the format string handed to `fprintf(stderr, ...)`. -/
def printErrorCases (hdr : CLHeader) : List (Int × String) :=
  [ (hdr.CL_BUILD_PROGRAM_FAILURE, "Program build faild\n"),
    (hdr.CL_COMPILER_NOT_AVAILABLE, "OpenCL compiler is not available\n"),
    (hdr.CL_DEVICE_NOT_FOUND, "Device is not available\n"),
    (hdr.CL_IMAGE_FORMAT_NOT_SUPPORTED, "Image format is not supported\n"),
    (hdr.CL_IMAGE_FORMAT_MISMATCH, "Image format missmatch\n"),
    (hdr.CL_INVALID_ARG_INDEX, "Invalid arg index\n"),
    (hdr.CL_INVALID_ARG_SIZE, "Invalid arg size\n"),
    (hdr.CL_INVALID_ARG_VALUE, "Invalid arg value\n"),
    (hdr.CL_INVALID_BINARY, "Invalid binary\n"),
    (hdr.CL_INVALID_BUFFER_SIZE, "Invalid buffer size\n"),
    (hdr.CL_INVALID_BUILD_OPTIONS, "Invalid build optionsn"),
    (hdr.CL_INVALID_COMMAND_QUEUE, "Invalid command queue\n"),
    (hdr.CL_INVALID_CONTEXT, "Invalid conrtext\n"),
    (hdr.CL_INVALID_DEVICE, "Invalid device\n"),
    (hdr.CL_INVALID_DEVICE_TYPE, "Invalid device type\n"),
    (hdr.CL_INVALID_EVENT, "Invalid event\n"),
    (hdr.CL_INVALID_EVENT_WAIT_LIST, "Invalid event wait list\n"),
    (hdr.CL_INVALID_GL_OBJECT, "Invalid OpenGL object\n"),
    (hdr.CL_INVALID_GLOBAL_OFFSET, "Invalid global offset\n"),
    (hdr.CL_INVALID_HOST_PTR, "Invalid host pointer\n"),
    (hdr.CL_INVALID_IMAGE_FORMAT_DESCRIPTOR, "Invalid image format descriptor\n"),
    (hdr.CL_INVALID_IMAGE_SIZE, "Invalid image size\n"),
    (hdr.CL_INVALID_KERNEL, "Invalid kernel\n"),
    (hdr.CL_INVALID_KERNEL_ARGS, "Invalid kernel args\n"),
    (hdr.CL_INVALID_KERNEL_DEFINITION, "Invalid kernel definition\n"),
    (hdr.CL_INVALID_KERNEL_NAME, "Invalid kernel name\n"),
    (hdr.CL_INVALID_MEM_OBJECT, "Invalid memory object\n"),
    (hdr.CL_INVALID_MIP_LEVEL, "Invalid MIP level\n"),
    (hdr.CL_INVALID_OPERATION, "Invalid operation\n"),
    (hdr.CL_INVALID_PLATFORM, "Invalid platform\n"),
    (hdr.CL_INVALID_PROGRAM, "Invalid program\n"),
    (hdr.CL_INVALID_PROGRAM_EXECUTABLE, "Invalid program executable\n"),
    (hdr.CL_INVALID_QUEUE_PROPERTIES, "Invalid queue properties\n"),
    (hdr.CL_INVALID_SAMPLER, "Invalid Sampler\n"),
    (hdr.CL_INVALID_VALUE, "Invalid value\n"),
    (hdr.CL_INVALID_WORK_DIMENSION, "Invalid work dimension\n"),
    (hdr.CL_INVALID_WORK_GROUP_SIZE, "Invalid work group size\n"),
    (hdr.CL_INVALID_WORK_ITEM_SIZE, "Invalid work item size\n"),
    (hdr.CL_MAP_FAILURE, "Memory mapping failed\n"),
    (hdr.CL_MEM_COPY_OVERLAP, "Copying overlapped memory address\n"),
    (hdr.CL_MEM_OBJECT_ALLOCATION_FAILURE, "Memory object allocation failure\n"),
    (hdr.CL_OUT_OF_HOST_MEMORY, "Out of host memory\n"),
    (hdr.CL_OUT_OF_RESOURCES, "Out of resources\n"),
    (hdr.CL_PROFILING_INFO_NOT_AVAILABLE, "Profiling info is not available\n"),
    (hdr.CL_SUCCESS, "Succeeded\n") ]

/-- The codes named by a `case` of the switch of `printError`. -/
def printErrorLabels (hdr : CLHeader) : List Int :=
  (printErrorCases hdr).map Prod.fst

/-- Control transfer of a `switch`: the arm whose label equals the scrutinee,
if there is one. -/
def selectArm (err : Int) : List (Int × String) → Option String
  | [] => none
  | (label, text) :: rest => if err = label then some text else selectArm err rest

/-- The `default:` arm of `printError`:
`fprintf(stderr, "Unknown error code: %d\n", err)`. -/
def unknownErrorText (err : Int) : String :=
  "Unknown error code: " ++ toString err ++ "\n"

/-- The text `printError(err)` writes to `stderr`. -/
def printErrorText (hdr : CLHeader) (err : Int) : String :=
  match selectArm err (printErrorCases hdr) with
  | some text => text
  | none => unknownErrorText err

/-- The format strings of the `case` arms, in source order. -/
def printErrorMessages : List String :=
  (printErrorCases khronosHeader).map Prod.snd

/-- The value of a decimal digit character. -/
def digitValue (c : Char) : Nat := c.toNat - 48

/-- The number a sequence of decimal digits denotes. -/
def decimalValue (cs : List Char) : Nat :=
  cs.foldl (fun acc c => 10 * acc + digitValue c) 0

/-- The integer a decimal numeral with an optional leading minus sign denotes. -/
def signedDecimalValue : List Char → Int
  | '-' :: cs => -(decimalValue cs : Int)
  | cs => (decimalValue cs : Int)

/-! ## The observable state of a run -/

/-- The resource handles `main` keeps in local variables. -/
inductive Handle
  | context | queue | program | kernel | memIn1 | memIn2 | memOut
  deriving DecidableEq, Repr

/-- The OpenCL entry points `main.cpp` calls; a creation carries the variable
that receives the handle, a release the handle it is given. -/
inductive ApiCall
  | clCreateContextFromType
  | clGetContextInfo
  | clCreateCommandQueue
  | clCreateProgramWithSource
  | clBuildProgram
  | clGetProgramBuildInfo
  | clGetPlatformIDs
  | clUnloadPlatformCompiler
  | clCreateKernel
  | clCreateBuffer (dst : Handle)
  | clSetKernelArg (index : Nat) (arg : Handle)
  | clEnqueueNDRangeKernel
  | clEnqueueReadBuffer
  | clReleaseMemObject (h : Handle)
  | clReleaseKernel (h : Handle)
  | clReleaseProgram (h : Handle)
  | clReleaseCommandQueue (h : Handle)
  | clReleaseContext (h : Handle)
  deriving DecidableEq, Repr

/-- The handle a call releases, when the call is a release. -/
def ApiCall.released : ApiCall → Option Handle
  | .clReleaseMemObject h => some h
  | .clReleaseKernel h => some h
  | .clReleaseProgram h => some h
  | .clReleaseCommandQueue h => some h
  | .clReleaseContext h => some h
  | _ => none

/-- An access of the program to an element of the local array `buffer` of
`printBuildLog`. -/
inductive BufferAccess
  | store (index : Nat)
  | load (index : Nat)
  deriving DecidableEq, Repr

/-- The element an access touches. -/
def BufferAccess.index : BufferAccess → Nat
  | .store i => i
  | .load i => i

/-- What a run has done so far: the text on both streams, the API calls issued
and the accesses to the log buffer, each in order of occurrence. -/
structure World where
  stdout : String
  stderr : String
  calls : List ApiCall
  bufferAccess : List BufferAccess

/-- The state at entry of `main`. -/
def World.start : World :=
  { stdout := "", stderr := "", calls := [], bufferAccess := [] }

/-- Effect of `printf(text)`. -/
def World.printf (w : World) (text : String) : World :=
  { w with stdout := w.stdout ++ text }

/-- Effect of `fprintf(stderr, text)`. -/
def World.fprintfStderr (w : World) (text : String) : World :=
  { w with stderr := w.stderr ++ text }

/-- Record an API call. -/
def World.call (w : World) (c : ApiCall) : World :=
  { w with calls := w.calls ++ [c] }

/-- Record accesses to the log buffer. -/
def World.access (w : World) (as : List BufferAccess) : World :=
  { w with bufferAccess := w.bufferAccess ++ as }

/-! ## Binary32 arithmetic -/

/-- The fraction `a / b` rounded to the nearest natural number, ties to even. -/
def roundNearestEven (a b : Nat) : Nat :=
  if 2 * (a % b) < b then a / b
  else if b < 2 * (a % b) then a / b + 1
  else if (a / b) % 2 = 0 then a / b else a / b + 1

/-- Number of halvings that bring `n` below 2, with a bound on the recursion. -/
def log2Fuel : Nat → Nat → Nat
  | 0, _ => 0
  | fuel + 1, n => if n < 2 then 0 else log2Fuel fuel (n / 2) + 1

/-- The position of the leading binary digit of `n`. -/
def ilog2 (n : Nat) : Nat := log2Fuel n n

/-- The binary exponent of the fraction `p / q`: the largest `e` with
`2 ^ e ≤ p / q`, for `p` and `q` positive. -/
def floorLog2 (p q : Nat) : Int :=
  if q ≤ p then (ilog2 (p / q) : Int) else -((ilog2 ((q - 1) / p) : Int) + 1)

/-- The exponent of the unit in the last place of binary32 at `p / q`: 23 below
the binary exponent, which is held at -126 in the subnormal range. -/
def ulpExponent (p q : Nat) : Int := max (floorLog2 p q) (-126) - 23

/-- The integer significand of `p / q` in binary32: `p / q` in units of the
last place, rounded to nearest, ties to even. -/
def significand (p q : Nat) : Nat :=
  if 0 ≤ ulpExponent p q then roundNearestEven p (q * 2 ^ (ulpExponent p q).toNat)
  else roundNearestEven (p * 2 ^ (-ulpExponent p q).toNat) q

/-- The non-negative fraction `p / q` rounded to the binary32 grid, before the
range check. -/
def roundMagnitude (p q : Nat) : ℚ :=
  (significand p q : ℚ) * (2 : ℚ) ^ (ulpExponent p q)

/-- Rounding of an exact result to binary32, round to nearest, ties to even;
`none` when the rounded magnitude reaches `2 ^ 128` (overflow). -/
def binary32Round (x : ℚ) : Option ℚ :=
  let m := roundMagnitude x.num.natAbs x.den
  if 2 ^ 128 ≤ m then none else some (if x < 0 then -m else m)

/-- The conversion `float(i)` of a non-negative `int`. -/
def f32OfNat (i : Nat) : Option ℚ := binary32Round (i : ℚ)

/-- The literal `100.0f`. -/
def hundred : Option ℚ := binary32Round 100

/-- The product of two `float` values. -/
def f32Mul (a b : Option ℚ) : Option ℚ :=
  match a, b with
  | some x, some y => binary32Round (x * y)
  | _, _ => none

/-- The quotient of two `float` values; a zero divisor gives no finite number. -/
def f32Div (a b : Option ℚ) : Option ℚ :=
  match a, b with
  | some x, some y => if y = 0 then none else binary32Round (x / y)
  | _, _ => none

/-- The sum of two `float` values. -/
def f32Add (a b : Option ℚ) : Option ℚ :=
  match a, b with
  | some x, some y => binary32Round (x + y)
  | _, _ => none

/-! ## The host arrays -/

/-- The static arrays `In1`, `In2` and `Out`, by index; only the indices below
`NumElements` exist. -/
structure HostBuffers where
  In1 : Nat → Option ℚ
  In2 : Nat → Option ℚ
  Out : Nat → Option ℚ

/-- The arrays at program start: static storage is zero. -/
def HostBuffers.zero : HostBuffers :=
  { In1 := fun _ => some 0, In2 := fun _ => some 0, Out := fun _ => some 0 }

/-- One iteration of the loop of `main.cpp:111-115`:
`In1[i] = float(i) * 100.0f; In2[i] = float(i) / 100.0f; Out[i] = 0.0f;`. -/
def initStep (b : HostBuffers) (i : Nat) : HostBuffers :=
  { In1 := fun j => if j = i then f32Mul (f32OfNat i) hundred else b.In1 j,
    In2 := fun j => if j = i then f32Div (f32OfNat i) hundred else b.In2 j,
    Out := fun j => if j = i then some 0 else b.Out j }

/-- The arrays after `for (int i = 0; i < NumElements; i++)` has run. -/
def initHostBuffers : HostBuffers :=
  (List.range NumElements).foldl initStep HostBuffers.zero

/-- The value of the expression `In1[i] + In2[i]` of `main.cpp:214`, the
fourth argument of the result line. -/
def expectedValue (b : HostBuffers) (i : Nat) : Option ℚ :=
  f32Add (b.In1 i) (b.In2 i)

/-! ## The results of the API calls -/

/-- The API calls whose status `main` checks, in program order. -/
inductive Step
  | createContext | getContextInfo | createCommandQueue | createProgram | buildProgram
  | createKernel | createBufferIn1 | createBufferIn2 | createBufferOut
  | setArgIn1 | setArgIn2 | setArgOut | enqueueKernel | readBuffer
  deriving DecidableEq, Repr

/-- The result of `clGetProgramBuildInfo(program, device, CL_PROGRAM_BUILD_LOG,
MaxLogSize, buffer, &size_ret)`: the status, the value left in `size_ret` and
the contents of `char buffer[MaxLogSize + 1]` after the call. -/
structure LogFetch where
  status : Int
  size_ret : Nat
  buffer : List Char
  buffer_size : buffer.length = MaxLogSize + 1

/-- Everything outside the program that decides a run: a status for every
checked call, the result of the build-log query, the contents the read-back
leaves in `Out`, and the text the `%f` conversion of `printf` produces for a
value. -/
structure Api where
  status : Step → Int
  logFetch : LogFetch
  deviceOut : Nat → Option ℚ
  formatF : Option ℚ → String

/-- The text of `printf("%f, %f, %f (%f)\n", In1[i], In2[i], Out[i], In1[i] + In2[i])`. -/
def resultLine (api : Api) (host : HostBuffers) (i : Nat) : String :=
  api.formatF (host.In1 i) ++ ", " ++ api.formatF (host.In2 i) ++ ", "
    ++ api.formatF (host.Out i) ++ " (" ++ api.formatF (expectedValue host i) ++ ")\n"

/-! ## `printError` and `printBuildLog` as state transformers -/

/-- Embedding of `static void printError(const cl_int err)`. -/
def printError (hdr : CLHeader) (err : Int) (w : World) : World :=
  w.fprintfStderr (printErrorText hdr err)

/-- The terminating character of a C string. -/
def NUL : Char := Char.ofNat 0

/-- The characters `printf("%s", buffer)` prints: those before the first NUL. -/
def cString (buffer : List Char) : List Char :=
  buffer.takeWhile (fun c => c ≠ NUL)

/-- The elements `printf("%s", buffer)` reads: every one up to and including
the first NUL. -/
def cStringLoads (buffer : List Char) : List BufferAccess :=
  (List.range ((cString buffer).length + 1)).map BufferAccess.load

/-- Embedding of `static void printBuildLog(const cl_program program, const cl_device_id
device)`: the query, then either the NUL store and the three `printf` calls, or the
failure line and `printError`. -/
def printBuildLog (hdr : CLHeader) (fetch : LogFetch) (w : World) : World :=
  -- status = clGetProgramBuildInfo(..., MaxLogSize, buffer, &size_ret);
  let w := w.call .clGetProgramBuildInfo
  let status := fetch.status
  let size_ret := fetch.size_ret
  let buffer := fetch.buffer
  if status = hdr.CL_SUCCESS then
    -- buffer[size_ret] = '\0';
    let w := w.access [.store size_ret]
    let buffer := buffer.set size_ret NUL
    let w := w.printf ">>> build log <<<\n"
    -- printf("%s\n", buffer);
    let w := w.access (cStringLoads buffer)
    let w := w.printf (String.mk (cString buffer) ++ "\n")
    w.printf ">>> end of build log <<<\n"
  else
    let w := w.printf "clGetProgramBuildInfo faild.\n"
    printError hdr status w

/-! ## `main` -/

/-- Embedding of `int main(int argc, const char * argv[])`: the exit code and the
final state, as a function of what the runtime returns. -/
def main (hdr : CLHeader) (api : Api) : Int × World :=
  let w := World.start
  -- 1. context
  let w := w.call .clCreateContextFromType
  let status := api.status .createContext
  if status ≠ hdr.CL_SUCCESS then
    let w := w.fprintfStderr "clCreateContextFromType failed.\n"
    let w := printError hdr status w
    (1, w)
  else
  -- 2. devices of the context
  let w := w.call .clGetContextInfo
  let status := api.status .getContextInfo
  if status ≠ hdr.CL_SUCCESS then
    let w := w.fprintfStderr "clGetContextInfo failed.\n"
    let w := printError hdr status w
    (2, w)
  else
  -- 3. command queue
  let w := w.call .clCreateCommandQueue
  let status := api.status .createCommandQueue
  if status ≠ hdr.CL_SUCCESS then
    let w := w.fprintfStderr "clCreateCommandQueue failed.\n"
    let w := printError hdr status w
    (3, w)
  else
  -- 4. program object
  let w := w.call .clCreateProgramWithSource
  let status := api.status .createProgram
  if status ≠ hdr.CL_SUCCESS then
    let w := w.fprintfStderr "clCreateProgramWithSource failed.\n"
    let w := printError hdr status w
    (4, w)
  else
  -- 5. build
  let w := w.call .clBuildProgram
  let status := api.status .buildProgram
  if status ≠ hdr.CL_SUCCESS then
    let w := w.fprintfStderr "clBuildProgram failed.\n"
    let w := printError hdr status w
    let w := printBuildLog hdr api.logFetch w
    (5, w)
  else
  -- the status of clGetPlatformIDs is assigned and never tested
  let w := w.call .clGetPlatformIDs
  let w := w.call .clUnloadPlatformCompiler
  -- 6. kernel
  let w := w.call .clCreateKernel
  let status := api.status .createKernel
  if status ≠ hdr.CL_SUCCESS then
    let w := w.fprintfStderr "clCreateKernel failed.\n"
    let w := printError hdr status w
    (6, w)
  else
  -- 7. memory objects, after the loop that fills In1, In2 and Out
  let host := initHostBuffers
  let w := w.call (.clCreateBuffer .memIn1)
  let status := api.status .createBufferIn1
  if status ≠ hdr.CL_SUCCESS then
    let w := w.fprintfStderr "clCreateBuffer for memIn1 failed.\n"
    let w := printError hdr status w
    (7, w)
  else
  let w := w.call (.clCreateBuffer .memIn2)
  let status := api.status .createBufferIn2
  if status ≠ hdr.CL_SUCCESS then
    let w := w.fprintfStderr "clCreateBuffer for memIn2 failed.\n"
    let w := printError hdr status w
    (7, w)
  else
  let w := w.call (.clCreateBuffer .memOut)
  let status := api.status .createBufferOut
  if status ≠ hdr.CL_SUCCESS then
    let w := w.fprintfStderr "clCreateBuffer for memOut failed.\n"
    let w := printError hdr status w
    (7, w)
  else
  -- 8. kernel arguments
  let w := w.call (.clSetKernelArg 0 .memIn1)
  let status := api.status .setArgIn1
  if status ≠ hdr.CL_SUCCESS then
    let w := w.fprintfStderr "clSetKernelArg for memIn1 failed.\n"
    let w := printError hdr status w
    (8, w)
  else
  let w := w.call (.clSetKernelArg 1 .memIn2)
  let status := api.status .setArgIn2
  if status ≠ hdr.CL_SUCCESS then
    let w := w.fprintfStderr "clSetKernelArg for memIn2 failed.\n"
    let w := printError hdr status w
    (8, w)
  else
  let w := w.call (.clSetKernelArg 2 .memOut)
  let status := api.status .setArgOut
  if status ≠ hdr.CL_SUCCESS then
    let w := w.fprintfStderr "clSetKernelArg for memOut failed.\n"
    let w := printError hdr status w
    (8, w)
  else
  -- 9. dispatch
  let w := w.call .clEnqueueNDRangeKernel
  let status := api.status .enqueueKernel
  if status ≠ hdr.CL_SUCCESS then
    let w := w.fprintfStderr "clEnqueueNDRangeKernel failed.\n"
    let w := printError hdr status w
    (9, w)
  else
  -- 10. read-back
  let w := w.call .clEnqueueReadBuffer
  let status := api.status .readBuffer
  if status ≠ hdr.CL_SUCCESS then
    let w := w.fprintfStderr "clEnqueueReadBuffer failed.\n"
    let w := printError hdr status w
    (10, w)
  else
  -- the read-back has filled Out; a part of the result
  let host := { host with Out := api.deviceOut }
  let w := w.printf "(In1, In2, Out)\n"
  let w := (List.range 100).foldl (fun w i => w.printf (resultLine api host i)) w
  -- 11. release
  let w := w.call (.clReleaseMemObject .memOut)
  let w := w.call (.clReleaseMemObject .memIn1)
  let w := w.call (.clReleaseMemObject .memIn2)
  let w := w.call (.clReleaseKernel .kernel)
  let w := w.call (.clReleaseProgram .program)
  let w := w.call (.clReleaseCommandQueue .queue)
  let w := w.call (.clReleaseContext .context)
  (0, w)

/-! ## Concrete runs -/

/-- A log buffer filled with the letter `e`. -/
def sampleBuffer : List Char := List.replicate (MaxLogSize + 1) 'e'

/-- A build-log query that succeeds and reports seven bytes. -/
def logFetchOk : LogFetch :=
  { status := 0, size_ret := 7, buffer := sampleBuffer,
    buffer_size := List.length_replicate _ _ }

/-- A build-log query that fails with `CL_INVALID_VALUE`. -/
def logFetchFailed : LogFetch :=
  { status := -30, size_ret := 0, buffer := sampleBuffer,
    buffer_size := List.length_replicate _ _ }

/-- A run in which every call succeeds. -/
def apiAllOk : Api :=
  { status := fun _ => 0, logFetch := logFetchOk, deviceOut := fun _ => some 0, formatF := fun _ => "0.000000" }

/-- A run in which the build fails with `CL_BUILD_PROGRAM_FAILURE` and the
log is fetched. -/
def apiBuildFails : Api :=
  { status := fun s => if s = .buildProgram then -11 else 0,
    logFetch := logFetchOk, deviceOut := fun _ => some 0, formatF := fun _ => "0.000000" }

/-- A run in which the build fails and the log query fails as well. -/
def apiBuildAndLogFail : Api :=
  { status := fun s => if s = .buildProgram then -11 else 0,
    logFetch := logFetchFailed, deviceOut := fun _ => some 0, formatF := fun _ => "0.000000" }

/-! ## The contract of section 4.1, in the words of the specification -/

/-- The checked calls in program order. -/
def Step.programOrder : List Step :=
  [ .createContext, .getContextInfo, .createCommandQueue, .createProgram, .buildProgram,
    .createKernel, .createBufferIn1, .createBufferIn2, .createBufferOut,
    .setArgIn1, .setArgIn2, .setArgOut, .enqueueKernel, .readBuffer ]

/-- The ordinal position of a step in the fixed sequence: context=1, device
query=2, queue=3, program-create=4, build=5, kernel=6, buffer-create=7,
arg-bind=8, dispatch=9, read-back=10. -/
def Step.ordinal : Step → Int
  | .createContext => 1
  | .getContextInfo => 2
  | .createCommandQueue => 3
  | .createProgram => 4
  | .buildProgram => 5
  | .createKernel => 6
  | .createBufferIn1 => 7
  | .createBufferIn2 => 7
  | .createBufferOut => 7
  | .setArgIn1 => 8
  | .setArgIn2 => 8
  | .setArgOut => 8
  | .enqueueKernel => 9
  | .readBuffer => 10

/-- The first step, in program order, whose status is not `CL_SUCCESS`. -/
def firstFailure (hdr : CLHeader) (api : Api) : Option Step :=
  Step.programOrder.find? (fun s => decide (api.status s ≠ hdr.CL_SUCCESS))

/-- The exit code the specification prescribes: the ordinal of the first
failing step, and 0 when no step fails. -/
def expectedExitCode (hdr : CLHeader) (api : Api) : Int :=
  match firstFailure hdr api with
  | some s => s.ordinal
  | none => 0

/-- The handles released in a run, in order of release. -/
def releasedHandles (w : World) : List Handle :=
  w.calls.filterMap ApiCall.released

/-- The layers of the dependency order of the specification: buffers and
kernel, then program and queue, then the context. -/
def releaseLayer : Handle → Nat
  | .memIn1 => 0
  | .memIn2 => 0
  | .memOut => 0
  | .kernel => 0
  | .program => 1
  | .queue => 1
  | .context => 2

/-! ## Summaries of the two kinds of run

Closed forms of the final state, proved equal to what `main` computes
(`main_eq`); the theorems about `main` are read off from them. -/

/-- The line `main` writes to `stderr` when a step fails. -/
def Step.diagnostic : Step → String
  | .createContext => "clCreateContextFromType failed.\n"
  | .getContextInfo => "clGetContextInfo failed.\n"
  | .createCommandQueue => "clCreateCommandQueue failed.\n"
  | .createProgram => "clCreateProgramWithSource failed.\n"
  | .buildProgram => "clBuildProgram failed.\n"
  | .createKernel => "clCreateKernel failed.\n"
  | .createBufferIn1 => "clCreateBuffer for memIn1 failed.\n"
  | .createBufferIn2 => "clCreateBuffer for memIn2 failed.\n"
  | .createBufferOut => "clCreateBuffer for memOut failed.\n"
  | .setArgIn1 => "clSetKernelArg for memIn1 failed.\n"
  | .setArgIn2 => "clSetKernelArg for memIn2 failed.\n"
  | .setArgOut => "clSetKernelArg for memOut failed.\n"
  | .enqueueKernel => "clEnqueueNDRangeKernel failed.\n"
  | .readBuffer => "clEnqueueReadBuffer failed.\n"

/-- The calls of steps 1 to 10, in the order `main` issues them. -/
def setupCalls : List ApiCall :=
  [ .clCreateContextFromType, .clGetContextInfo, .clCreateCommandQueue,
    .clCreateProgramWithSource, .clBuildProgram, .clGetPlatformIDs,
    .clUnloadPlatformCompiler, .clCreateKernel, .clCreateBuffer .memIn1,
    .clCreateBuffer .memIn2, .clCreateBuffer .memOut, .clSetKernelArg 0 .memIn1,
    .clSetKernelArg 1 .memIn2, .clSetKernelArg 2 .memOut, .clEnqueueNDRangeKernel,
    .clEnqueueReadBuffer ]

/-- The calls of step 11, in the order `main` issues them. -/
def releaseCalls : List ApiCall :=
  [ .clReleaseMemObject .memOut, .clReleaseMemObject .memIn1, .clReleaseMemObject .memIn2,
    .clReleaseKernel .kernel, .clReleaseProgram .program, .clReleaseCommandQueue .queue,
    .clReleaseContext .context ]

/-- The number of calls `main` has issued when the status of a step is tested. -/
def Step.callCount : Step → Nat
  | .createContext => 1
  | .getContextInfo => 2
  | .createCommandQueue => 3
  | .createProgram => 4
  | .buildProgram => 5
  | .createKernel => 8
  | .createBufferIn1 => 9
  | .createBufferIn2 => 10
  | .createBufferOut => 11
  | .setArgIn1 => 12
  | .setArgIn2 => 13
  | .setArgOut => 14
  | .enqueueKernel => 15
  | .readBuffer => 16

/-- The final state of a run whose first failing step is `s`. -/
def failureWorld (hdr : CLHeader) (api : Api) (s : Step) : World :=
  let w : World :=
    { stdout := "", stderr := s.diagnostic ++ printErrorText hdr (api.status s),
      calls := setupCalls.take s.callCount, bufferAccess := [] }
  if s = .buildProgram then printBuildLog hdr api.logFetch w else w

/-- The final state of a run in which no step fails. -/
def successWorld (api : Api) : World :=
  { stdout := (List.range 100).foldl
      (fun out i => out ++ resultLine api { initHostBuffers with Out := api.deviceOut } i)
      "(In1, In2, Out)\n",
    stderr := "", calls := setupCalls ++ releaseCalls, bufferAccess := [] }

/-- The build-log block `printBuildLog` prints for a fetched log. -/
def buildLogBlock (fetch : LogFetch) : String :=
  ">>> build log <<<\n" ++ (String.mk (cString (fetch.buffer.set fetch.size_ret NUL)) ++ "\n")
    ++ ">>> end of build log <<<\n"

/-! ## Helper lemmas on the state transformers -/

theorem foldl_printf (f : Nat → String) (l : List Nat) (w : World) :
    l.foldl (fun w i => World.mk (w.stdout ++ f i) w.stderr w.calls w.bufferAccess) w
      = World.mk (l.foldl (fun out i => out ++ f i) w.stdout) w.stderr w.calls
          w.bufferAccess := by
  induction l generalizing w with
  | nil => rfl
  | cons i l ih => simp only [List.foldl_cons, ih]

/-- The run of `main`, by the first failing step. -/
theorem main_eq (hdr : CLHeader) (api : Api) :
    main hdr api =
      match firstFailure hdr api with
      | some s => (s.ordinal, failureWorld hdr api s)
      | none => (0, successWorld api) := by
  by_cases h1 : api.status .createContext = hdr.CL_SUCCESS
  swap
  · simp [main, firstFailure, Step.programOrder, failureWorld, printError, World.start,
      World.call, World.fprintfStderr, Step.ordinal, Step.diagnostic, Step.callCount,
      setupCalls, h1]
  by_cases h2 : api.status .getContextInfo = hdr.CL_SUCCESS
  swap
  · simp [main, firstFailure, Step.programOrder, failureWorld, printError, World.start,
      World.call, World.fprintfStderr, Step.ordinal, Step.diagnostic, Step.callCount,
      setupCalls, h1, h2]
  by_cases h3 : api.status .createCommandQueue = hdr.CL_SUCCESS
  swap
  · simp [main, firstFailure, Step.programOrder, failureWorld, printError, World.start,
      World.call, World.fprintfStderr, Step.ordinal, Step.diagnostic, Step.callCount,
      setupCalls, h1, h2, h3]
  by_cases h4 : api.status .createProgram = hdr.CL_SUCCESS
  swap
  · simp [main, firstFailure, Step.programOrder, failureWorld, printError, World.start,
      World.call, World.fprintfStderr, Step.ordinal, Step.diagnostic, Step.callCount,
      setupCalls, h1, h2, h3, h4]
  by_cases h5 : api.status .buildProgram = hdr.CL_SUCCESS
  swap
  · simp [main, firstFailure, Step.programOrder, failureWorld, printError, World.start,
      World.call, World.fprintfStderr, Step.ordinal, Step.diagnostic, Step.callCount,
      setupCalls, h1, h2, h3, h4, h5]
  by_cases h6 : api.status .createKernel = hdr.CL_SUCCESS
  swap
  · simp [main, firstFailure, Step.programOrder, failureWorld, printError, World.start,
      World.call, World.fprintfStderr, Step.ordinal, Step.diagnostic, Step.callCount,
      setupCalls, h1, h2, h3, h4, h5, h6]
  by_cases h7 : api.status .createBufferIn1 = hdr.CL_SUCCESS
  swap
  · simp [main, firstFailure, Step.programOrder, failureWorld, printError, World.start,
      World.call, World.fprintfStderr, Step.ordinal, Step.diagnostic, Step.callCount,
      setupCalls, h1, h2, h3, h4, h5, h6, h7]
  by_cases h8 : api.status .createBufferIn2 = hdr.CL_SUCCESS
  swap
  · simp [main, firstFailure, Step.programOrder, failureWorld, printError, World.start,
      World.call, World.fprintfStderr, Step.ordinal, Step.diagnostic, Step.callCount,
      setupCalls, h1, h2, h3, h4, h5, h6, h7, h8]
  by_cases h9 : api.status .createBufferOut = hdr.CL_SUCCESS
  swap
  · simp [main, firstFailure, Step.programOrder, failureWorld, printError, World.start,
      World.call, World.fprintfStderr, Step.ordinal, Step.diagnostic, Step.callCount,
      setupCalls, h1, h2, h3, h4, h5, h6, h7, h8, h9]
  by_cases h10 : api.status .setArgIn1 = hdr.CL_SUCCESS
  swap
  · simp [main, firstFailure, Step.programOrder, failureWorld, printError, World.start,
      World.call, World.fprintfStderr, Step.ordinal, Step.diagnostic, Step.callCount,
      setupCalls, h1, h2, h3, h4, h5, h6, h7, h8, h9, h10]
  by_cases h11 : api.status .setArgIn2 = hdr.CL_SUCCESS
  swap
  · simp [main, firstFailure, Step.programOrder, failureWorld, printError, World.start,
      World.call, World.fprintfStderr, Step.ordinal, Step.diagnostic, Step.callCount,
      setupCalls, h1, h2, h3, h4, h5, h6, h7, h8, h9, h10, h11]
  by_cases h12 : api.status .setArgOut = hdr.CL_SUCCESS
  swap
  · simp [main, firstFailure, Step.programOrder, failureWorld, printError, World.start,
      World.call, World.fprintfStderr, Step.ordinal, Step.diagnostic, Step.callCount,
      setupCalls, h1, h2, h3, h4, h5, h6, h7, h8, h9, h10, h11, h12]
  by_cases h13 : api.status .enqueueKernel = hdr.CL_SUCCESS
  swap
  · simp [main, firstFailure, Step.programOrder, failureWorld, printError, World.start,
      World.call, World.fprintfStderr, Step.ordinal, Step.diagnostic, Step.callCount,
      setupCalls, h1, h2, h3, h4, h5, h6, h7, h8, h9, h10, h11, h12, h13]
  by_cases h14 : api.status .readBuffer = hdr.CL_SUCCESS
  swap
  · simp [main, firstFailure, Step.programOrder, failureWorld, printError, World.start,
      World.call, World.fprintfStderr, Step.ordinal, Step.diagnostic, Step.callCount,
      setupCalls, h1, h2, h3, h4, h5, h6, h7, h8, h9, h10, h11, h12, h13, h14]
  simp [main, firstFailure, Step.programOrder, successWorld, foldl_printf, World.start,
    World.call, World.printf, setupCalls, releaseCalls,
    h1, h2, h3, h4, h5, h6, h7, h8, h9, h10, h11, h12, h13, h14]


theorem firstFailure_eq_none_iff (hdr : CLHeader) (api : Api) :
    firstFailure hdr api = none ↔ ∀ s : Step, api.status s = hdr.CL_SUCCESS := by
  unfold firstFailure
  rw [List.find?_eq_none]
  constructor
  · intro h s
    have := h s (by cases s <;> simp [Step.programOrder])
    simpa using this
  · intro h s _
    simp [h s]

theorem firstFailure_some_status (hdr : CLHeader) (api : Api) (s : Step)
    (h : firstFailure hdr api = some s) : api.status s ≠ hdr.CL_SUCCESS := by
  have := List.find?_some h
  simpa using this

theorem Step.ordinal_ne_zero (s : Step) : s.ordinal ≠ 0 := by
  cases s <;> simp [Step.ordinal]

theorem firstFailure_of_exit_ne_zero (hdr : CLHeader) (api : Api)
    (h : (main hdr api).1 ≠ 0) :
    ∃ s, firstFailure hdr api = some s ∧ main hdr api = (s.ordinal, failureWorld hdr api s) := by
  rw [main_eq] at h ⊢
  cases hf : firstFailure hdr api with
  | none => simp [hf] at h
  | some s => exact ⟨s, rfl, rfl⟩

theorem main_of_exit_zero (hdr : CLHeader) (api : Api) (h : (main hdr api).1 = 0) :
    main hdr api = (0, successWorld api) := by
  rw [main_eq] at h ⊢
  cases hf : firstFailure hdr api with
  | none => rfl
  | some s => simp [hf, Step.ordinal_ne_zero] at h

theorem printBuildLog_calls (hdr : CLHeader) (fetch : LogFetch) (w : World) :
    (printBuildLog hdr fetch w).calls = w.calls ++ [.clGetProgramBuildInfo] := by
  unfold printBuildLog
  by_cases h : fetch.status = hdr.CL_SUCCESS <;>
    simp [h, printError, World.call, World.printf, World.access, World.fprintfStderr]

theorem failureWorld_calls (hdr : CLHeader) (api : Api) (s : Step) :
    (failureWorld hdr api s).calls
      = setupCalls.take s.callCount ++
          (if s = .buildProgram then [.clGetProgramBuildInfo] else []) := by
  unfold failureWorld
  by_cases h : s = .buildProgram
  · simp [h, printBuildLog_calls]
  · simp [h]

/-! ## Exit codes -/

/-- C1: for every assignment of status codes to the checked calls, the exit
code of `main` is the ordinal of the first step, in program order, whose
status is not `CL_SUCCESS`, and it is 0 exactly when every status is
`CL_SUCCESS`. -/
theorem main_exit_code (hdr : CLHeader) (api : Api) :
    (main hdr api).1 = expectedExitCode hdr api ∧
    ((main hdr api).1 = 0 ↔ ∀ s : Step, api.status s = hdr.CL_SUCCESS) := by
  rw [main_eq, ← firstFailure_eq_none_iff]
  unfold expectedExitCode
  cases firstFailure hdr api with
  | none => simp
  | some s => simp [Step.ordinal_ne_zero]

/-! ## Release of resources -/

/-- C5: in every run of `main` that returns 0, the release calls are exactly
the seven of step 11; each of the seven handles is released exactly once, the
three buffers and the kernel before the program and the queue, and these
before the context. -/
theorem main_success_releases (hdr : CLHeader) (api : Api)
    (h : (main hdr api).1 = 0) :
    (main hdr api).2.calls.filter (fun c => c.released.isSome)
      = [ .clReleaseMemObject .memOut, .clReleaseMemObject .memIn1,
          .clReleaseMemObject .memIn2, .clReleaseKernel .kernel, .clReleaseProgram .program,
          .clReleaseCommandQueue .queue, .clReleaseContext .context ] ∧
    (∀ r : Handle, (releasedHandles (main hdr api).2).count r = 1) ∧
    (∀ a b : Handle, releaseLayer a < releaseLayer b →
      (releasedHandles (main hdr api).2).indexOf a
        < (releasedHandles (main hdr api).2).indexOf b) := by
  rw [main_of_exit_zero hdr api h]
  have hr : releasedHandles (0, successWorld api).2
      = [.memOut, .memIn1, .memIn2, .kernel, .program, .queue, .context] := rfl
  refine ⟨rfl, ?_, ?_⟩
  · intro r
    rw [hr]
    cases r <;> decide
  · intro a b
    rw [hr]
    cases a <;> cases b <;> decide

/-- Witness of C5: the run in which every call succeeds. -/
theorem main_success_releases_witness :
    (main khronosHeader apiAllOk).1 = 0 ∧
    (∀ r : Handle, (releasedHandles (main khronosHeader apiAllOk).2).count r = 1) :=
  ⟨by decide, (main_success_releases khronosHeader apiAllOk (by decide)).2.1⟩

/-- C6: in every run of `main` that returns a non-zero exit code, no call of
the trace is a release call. -/
theorem main_failure_no_release (hdr : CLHeader) (api : Api)
    (h : (main hdr api).1 ≠ 0) :
    (∀ c ∈ (main hdr api).2.calls, c.released = none) ∧
    releasedHandles (main hdr api).2 = [] := by
  obtain ⟨s, _, hm⟩ := firstFailure_of_exit_ne_zero hdr api h
  have hc : ∀ c ∈ (main hdr api).2.calls, c.released = none := by
    rw [hm]
    simp only [failureWorld_calls]
    cases s <;> decide
  refine ⟨hc, ?_⟩
  unfold releasedHandles
  rw [List.filterMap_eq_nil_iff]
  exact hc

/-- Witness of C6: the run in which the build fails. -/
theorem main_failure_no_release_witness :
    (main khronosHeader apiBuildFails).1 ≠ 0 ∧
    releasedHandles (main khronosHeader apiBuildFails).2 = [] :=
  ⟨by decide, (main_failure_no_release khronosHeader apiBuildFails (by decide)).2⟩

/-! ## Helper lemmas on `printError` -/

theorem printErrorCases_messages (hdr : CLHeader) :
    (printErrorCases hdr).map Prod.snd = printErrorMessages := rfl

theorem selectArm_some_mem (err : Int) (arms : List (Int × String)) (text : String)
    (h : selectArm err arms = some text) : (err, text) ∈ arms := by
  induction arms with
  | nil => simp [selectArm] at h
  | cons arm rest ih =>
    obtain ⟨label, t⟩ := arm
    unfold selectArm at h
    by_cases he : err = label
    · simp only [he, if_true, Option.some.injEq] at h
      simp [he, h]
    · simp only [he, if_false] at h
      exact List.mem_cons_of_mem _ (ih h)

theorem selectArm_eq_none_iff (err : Int) (arms : List (Int × String)) :
    selectArm err arms = none ↔ err ∉ arms.map Prod.fst := by
  induction arms with
  | nil => simp [selectArm]
  | cons arm rest ih =>
    obtain ⟨label, t⟩ := arm
    unfold selectArm
    by_cases he : err = label
    · simp [he]
    · simp [he, ih]

theorem printErrorText_of_label (hdr : CLHeader) (err : Int)
    (h : err ∈ printErrorLabels hdr) :
    (err, printErrorText hdr err) ∈ printErrorCases hdr := by
  unfold printErrorText
  cases hs : selectArm err (printErrorCases hdr) with
  | none => exact absurd h ((selectArm_eq_none_iff _ _).1 hs)
  | some text => exact selectArm_some_mem _ _ _ hs

theorem printErrorText_mem_messages (hdr : CLHeader) (err : Int)
    (h : err ∈ printErrorLabels hdr) : printErrorText hdr err ∈ printErrorMessages := by
  rw [← printErrorCases_messages hdr]
  exact List.mem_map_of_mem Prod.snd (printErrorText_of_label hdr err h)

theorem printErrorText_of_not_label (hdr : CLHeader) (err : Int)
    (h : err ∉ printErrorLabels hdr) : printErrorText hdr err = unknownErrorText err := by
  unfold printErrorText
  rw [(selectArm_eq_none_iff _ _).2 h]

/-! ## Helper lemmas on the decimal rendering of `%d` -/

theorem digitValue_digitChar (k : Nat) (h : k < 10) : digitValue (Nat.digitChar k) = k := by
  interval_cases k <;> rfl

theorem isDigit_digitChar (k : Nat) (h : k < 10) : (Nat.digitChar k).isDigit = true := by
  interval_cases k <;> rfl

theorem decimalValue_append_singleton (cs : List Char) (c : Char) :
    decimalValue (cs ++ [c]) = 10 * decimalValue cs + digitValue c := by
  simp [decimalValue, List.foldl_append]

theorem toDigitsCore_spec (fuel : Nat) : ∀ (n : Nat) (ds : List Char), n < fuel →
    ∃ pre, Nat.toDigitsCore 10 fuel n ds = pre ++ ds ∧ decimalValue pre = n ∧
      (∀ c ∈ pre, c.isDigit = true) ∧ pre ≠ [] := by
  induction fuel with
  | zero => intro n ds h; omega
  | succ fuel ih =>
    intro n ds h
    unfold Nat.toDigitsCore
    simp only []
    by_cases h0 : n / 10 = 0
    · have hn : n < 10 := by omega
      refine ⟨[Nat.digitChar (n % 10)], by simp [h0], ?_, ?_, by simp⟩
      · simp [decimalValue, Nat.mod_eq_of_lt hn, digitValue_digitChar n hn]
      · intro c hc
        simp only [List.mem_singleton] at hc
        rw [hc]
        exact isDigit_digitChar _ (Nat.mod_lt n (by decide))
    · obtain ⟨pre, hpre, hval, hdig, _⟩ :=
        ih (n / 10) (Nat.digitChar (n % 10) :: ds) (by omega)
      refine ⟨pre ++ [Nat.digitChar (n % 10)], by simp [h0, hpre], ?_, ?_, by simp⟩
      · rw [decimalValue_append_singleton, hval,
          digitValue_digitChar _ (Nat.mod_lt n (by decide))]
        omega
      · intro c hc
        rcases List.mem_append.1 hc with hc | hc
        · exact hdig c hc
        · simp only [List.mem_singleton] at hc
          rw [hc]
          exact isDigit_digitChar _ (Nat.mod_lt n (by decide))

theorem toDigits_spec (n : Nat) :
    decimalValue (Nat.toDigits 10 n) = n ∧ (∀ c ∈ Nat.toDigits 10 n, c.isDigit = true) ∧
      Nat.toDigits 10 n ≠ [] := by
  obtain ⟨pre, hpre, hval, hdig, hne⟩ := toDigitsCore_spec (n + 1) n [] (Nat.lt_succ_self n)
  unfold Nat.toDigits
  rw [hpre, List.append_nil]
  exact ⟨hval, hdig, hne⟩

theorem toString_ofNat_data (m : Nat) :
    (toString (Int.ofNat m)).data = Nat.toDigits 10 m := rfl

theorem toString_negSucc_data (m : Nat) :
    (toString (Int.negSucc m)).data = '-' :: Nat.toDigits 10 (m + 1) := rfl

theorem signedDecimalValue_digits (cs : List Char) (h : ∀ c ∈ cs, c.isDigit = true) :
    signedDecimalValue cs = (decimalValue cs : Int) := by
  cases cs with
  | nil => rfl
  | cons c cs =>
    have hc : c ≠ '-' := by
      intro hc
      have := h c (List.mem_cons_self _ _)
      rw [hc] at this
      exact absurd this (by decide)
    unfold signedDecimalValue
    split
    · rename_i heq
      simp only [List.cons.injEq] at heq
      exact absurd heq.1 hc
    · rfl

/-- The text `%d` produces for an integer denotes exactly that integer. -/
theorem signedDecimalValue_toString (err : Int) :
    signedDecimalValue (toString err).data = err := by
  cases err with
  | ofNat m =>
    rw [toString_ofNat_data, signedDecimalValue_digits _ (toDigits_spec m).2.1,
      (toDigits_spec m).1]
    rfl
  | negSucc m =>
    rw [toString_negSucc_data]
    show -(decimalValue (Nat.toDigits 10 (m + 1)) : Int) = Int.negSucc m
    rw [(toDigits_spec (m + 1)).1]
    rfl

/-- No character `%d` produces is a newline. -/
theorem toString_int_no_newline (err : Int) : ∀ c ∈ (toString err).data, c ≠ '\n' := by
  have hd : ∀ n : Nat, ∀ c ∈ Nat.toDigits 10 n, c ≠ '\n' := by
    intro n c hc hn
    have := (toDigits_spec n).2.1 c hc
    rw [hn] at this
    exact absurd this (by decide)
  cases err with
  | ofNat m => rw [toString_ofNat_data]; exact hd m
  | negSucc m =>
    rw [toString_negSucc_data]
    intro c hc
    rcases List.mem_cons.1 hc with hc | hc
    · rw [hc]; decide
    · exact hd _ c hc

/-! ## The error-message reporter -/

/-- C2: for every code named by a case of the switch of `printError` the
emitted message is non-empty, and two different such codes get different
messages. -/
theorem printError_defined_messages (hdr : CLHeader) :
    (∀ a ∈ printErrorLabels hdr, printErrorText hdr a ≠ "") ∧
    (∀ a ∈ printErrorLabels hdr, ∀ b ∈ printErrorLabels hdr, a ≠ b →
      printErrorText hdr a ≠ printErrorText hdr b) := by
  constructor
  · intro a ha he
    have hm := printErrorText_mem_messages hdr a ha
    rw [he] at hm
    exact absurd hm (by decide)
  · intro a ha b hb hab he
    have hnd : ((printErrorCases hdr).map Prod.snd).Nodup := by
      rw [printErrorCases_messages]
      decide
    have h1 := printErrorText_of_label hdr a ha
    have h2 := printErrorText_of_label hdr b hb
    have := List.inj_on_of_nodup_map hnd h1 h2 he
    exact hab (congrArg Prod.fst this)

/-- Witness of C2: `CL_BUILD_PROGRAM_FAILURE` and `CL_INVALID_BUILD_OPTIONS`
under the Khronos values. -/
theorem printError_defined_messages_witness :
    printErrorText khronosHeader (-11) ≠ "" ∧
    printErrorText khronosHeader (-11) ≠ printErrorText khronosHeader (-43) :=
  ⟨(printError_defined_messages khronosHeader).1 (-11) (by decide),
   (printError_defined_messages khronosHeader).2 (-11) (by decide) (-43) (by decide)
     (by decide)⟩

/-- C3: for every code that no case of the switch names, `printError` emits
the generic message, which carries the text `%d` produces for that code; this
text denotes exactly that code and starts with a minus sign when the code is
negative.  For a code that a case names, the generic message is never
emitted. -/
theorem printError_unknown_code (hdr : CLHeader) :
    (∀ err : Int, err ∉ printErrorLabels hdr →
      printErrorText hdr err = "Unknown error code: " ++ toString err ++ "\n" ∧
      signedDecimalValue (toString err).data = err ∧
      (err < 0 → (toString err).data.head? = some '-')) ∧
    (∀ err ∈ printErrorLabels hdr, ∀ k : Int,
      printErrorText hdr err ≠ "Unknown error code: " ++ toString k ++ "\n") := by
  constructor
  · intro err herr
    refine ⟨printErrorText_of_not_label hdr err herr, signedDecimalValue_toString err, ?_⟩
    intro hneg
    cases err with
    | ofNat m => exact absurd hneg (by simp)
    | negSucc m => rfl
  · intro err herr k he
    have hm := printErrorText_mem_messages hdr err herr
    have hU : ∀ m ∈ printErrorMessages, m.data.head? ≠ some 'U' := by decide
    apply hU _ hm
    rw [he]
    rfl

/-- Witness of C3: the code -2 (`CL_DEVICE_NOT_AVAILABLE`, which the switch
omits) and the code -11. -/
theorem printError_unknown_code_witness :
    printErrorText khronosHeader (-2) = "Unknown error code: " ++ toString (-2 : Int) ++ "\n" ∧
    printErrorText khronosHeader (-11) ≠ "Unknown error code: " ++ toString (-11 : Int) ++ "\n" :=
  ⟨((printError_unknown_code khronosHeader).1 (-2) (by decide)).1,
   (printError_unknown_code khronosHeader).2 (-11) (by decide) (-11)⟩

/-- C9, the defect: for `CL_INVALID_BUILD_OPTIONS` the text `printError` writes
is `Invalid build optionsn`, which contains no newline character. -/
theorem printError_invalid_build_options :
    printErrorText khronosHeader khronosHeader.CL_INVALID_BUILD_OPTIONS
      = "Invalid build optionsn" ∧
    (printErrorText khronosHeader khronosHeader.CL_INVALID_BUILD_OPTIONS).data.count '\n' = 0 ∧
    (printErrorText khronosHeader khronosHeader.CL_INVALID_BUILD_OPTIONS).data.getLast?
      ≠ some '\n' := by
  decide

/-- Every text of `printError` other than that of the `CL_INVALID_BUILD_OPTIONS`
arm is exactly one line. -/
theorem printError_one_line_otherwise (hdr : CLHeader) (err : Int)
    (h : printErrorText hdr err ≠ "Invalid build optionsn") :
    (printErrorText hdr err).data.count '\n' = 1 ∧
    (printErrorText hdr err).data.getLast? = some '\n' := by
  by_cases hl : err ∈ printErrorLabels hdr
  · have hm := printErrorText_mem_messages hdr err hl
    have hall : ∀ m ∈ printErrorMessages, m ≠ "Invalid build optionsn" →
        m.data.count '\n' = 1 ∧ m.data.getLast? = some '\n' := by decide
    exact hall _ hm h
  · rw [printErrorText_of_not_label hdr err hl]
    unfold unknownErrorText
    have hc : (toString err).data.count '\n' = 0 :=
      List.count_eq_zero.2 (fun hmem => toString_int_no_newline err _ hmem rfl)
    constructor
    · simp only [String.data_append, List.count_append, hc]
      decide
    · simp only [String.data_append]
      exact List.getLast?_append_of_ne_nil _ (by decide)

/-! ## The build-log reporter -/

theorem takeWhile_length_le (p : Char → Bool) : ∀ (l : List Char) (i : Nat) (hi : i < l.length),
    p (l.get ⟨i, hi⟩) = false → (l.takeWhile p).length ≤ i := by
  intro l
  induction l with
  | nil => intro i hi; simp at hi
  | cons c l ih =>
    intro i hi hp
    cases i with
    | zero =>
      simp only [List.get_eq_getElem, List.getElem_cons_zero] at hp
      simp [List.takeWhile, hp]
    | succ i =>
      simp only [List.get_eq_getElem, List.getElem_cons_succ] at hp
      have hi2 : i < l.length := by simpa using hi
      have := ih i hi2 (by simpa using hp)
      unfold List.takeWhile
      cases p c with
      | true => simpa using this
      | false => simp

theorem cString_set_length_le (buffer : List Char) (i : Nat) (hi : i < buffer.length) :
    (cString (buffer.set i NUL)).length ≤ i := by
  unfold cString
  apply takeWhile_length_le _ _ i (by simpa using hi)
  simp

theorem printBuildLog_ok (hdr : CLHeader) (fetch : LogFetch) (w : World)
    (h : fetch.status = hdr.CL_SUCCESS) :
    printBuildLog hdr fetch w =
      { stdout := w.stdout ++ ">>> build log <<<\n"
          ++ (String.mk (cString (fetch.buffer.set fetch.size_ret NUL)) ++ "\n")
          ++ ">>> end of build log <<<\n",
        stderr := w.stderr,
        calls := w.calls ++ [.clGetProgramBuildInfo],
        bufferAccess := w.bufferAccess ++ [.store fetch.size_ret]
          ++ cStringLoads (fetch.buffer.set fetch.size_ret NUL) } := by
  simp [printBuildLog, h, World.call, World.printf, World.access]

theorem printBuildLog_failed (hdr : CLHeader) (fetch : LogFetch) (w : World)
    (h : fetch.status ≠ hdr.CL_SUCCESS) :
    printBuildLog hdr fetch w =
      { stdout := w.stdout ++ "clGetProgramBuildInfo faild.\n",
        stderr := w.stderr ++ printErrorText hdr fetch.status,
        calls := w.calls ++ [.clGetProgramBuildInfo],
        bufferAccess := w.bufferAccess } := by
  simp [printBuildLog, h, printError, World.call, World.printf, World.fprintfStderr]

/-- C10: when the log query succeeds and reports a size of at most
`MaxLogSize`, `printBuildLog` stores the terminating NUL at `buffer[size_ret]`
and every element it stores to or reads lies inside the `MaxLogSize + 1`
elements of `buffer`; when the query fails it accesses no element of `buffer`. -/
theorem printBuildLog_buffer_access (hdr : CLHeader) (fetch : LogFetch) (w : World) :
    (fetch.status = hdr.CL_SUCCESS → fetch.size_ret ≤ MaxLogSize →
      (printBuildLog hdr fetch w).bufferAccess
        = w.bufferAccess ++ [.store fetch.size_ret]
            ++ cStringLoads (fetch.buffer.set fetch.size_ret NUL) ∧
      fetch.buffer.length = MaxLogSize + 1 ∧
      fetch.size_ret < fetch.buffer.length ∧
      ∀ a ∈ [BufferAccess.store fetch.size_ret]
            ++ cStringLoads (fetch.buffer.set fetch.size_ret NUL),
        a.index < fetch.buffer.length) ∧
    (fetch.status ≠ hdr.CL_SUCCESS →
      (printBuildLog hdr fetch w).bufferAccess = w.bufferAccess) := by
  constructor
  · intro hs hsize
    have hlt : fetch.size_ret < fetch.buffer.length := by
      rw [fetch.buffer_size]
      exact Nat.lt_succ_of_le hsize
    refine ⟨by rw [printBuildLog_ok hdr fetch w hs], fetch.buffer_size, hlt, ?_⟩
    intro a ha
    rcases List.mem_append.1 ha with ha | ha
    · simp only [List.mem_singleton] at ha
      rw [ha]
      exact hlt
    · unfold cStringLoads at ha
      obtain ⟨i, hi, rfl⟩ := List.mem_map.1 ha
      have hlen := cString_set_length_le fetch.buffer fetch.size_ret hlt
      have hi2 := List.mem_range.1 hi
      show i < fetch.buffer.length
      omega
  · intro hs
    rw [printBuildLog_failed hdr fetch w hs]

/-- Witness of C10: a query that succeeds and reports seven bytes. -/
theorem printBuildLog_buffer_access_witness :
    logFetchOk.status = khronosHeader.CL_SUCCESS ∧ logFetchOk.size_ret ≤ MaxLogSize ∧
    ∀ a ∈ [BufferAccess.store logFetchOk.size_ret]
          ++ cStringLoads (logFetchOk.buffer.set logFetchOk.size_ret NUL),
      a.index < logFetchOk.buffer.length :=
  ⟨by decide, by decide,
   ((printBuildLog_buffer_access khronosHeader logFetchOk World.start).1
      (by decide) (by decide)).2.2.2⟩

/-! ## Failing runs -/

theorem failureWorld_of_ne_build (hdr : CLHeader) (api : Api) (s : Step)
    (h : s ≠ .buildProgram) :
    (failureWorld hdr api s).stderr = s.diagnostic ++ printErrorText hdr (api.status s) ∧
    (failureWorld hdr api s).stdout = "" := by
  simp [failureWorld, h]

theorem failureWorld_build_ok (hdr : CLHeader) (api : Api)
    (h : api.logFetch.status = hdr.CL_SUCCESS) :
    (failureWorld hdr api .buildProgram).stderr
      = "clBuildProgram failed.\n" ++ printErrorText hdr (api.status .buildProgram) ∧
    (failureWorld hdr api .buildProgram).stdout
      = ">>> build log <<<\n"
        ++ String.mk (cString (api.logFetch.buffer.set api.logFetch.size_ret NUL)) ++ "\n"
        ++ ">>> end of build log <<<\n" := by
  simp [failureWorld, printBuildLog_ok hdr api.logFetch _ h, Step.diagnostic,
    String.append_assoc]

theorem failureWorld_build_failed (hdr : CLHeader) (api : Api)
    (h : api.logFetch.status ≠ hdr.CL_SUCCESS) :
    (failureWorld hdr api .buildProgram).stderr
      = "clBuildProgram failed.\n" ++ printErrorText hdr (api.status .buildProgram)
        ++ printErrorText hdr api.logFetch.status ∧
    (failureWorld hdr api .buildProgram).stdout = "clGetProgramBuildInfo faild.\n" := by
  simp [failureWorld, printBuildLog_failed hdr api.logFetch _ h, Step.diagnostic]

/-- C4, counterexample: the build fails after four successful steps and the
log query fails as well; the exit code is 5 and neither stream contains a
delimiter line of the build-log block. -/
theorem build_failure_without_log_block :
    apiBuildAndLogFail.status .createContext = khronosHeader.CL_SUCCESS ∧
    apiBuildAndLogFail.status .getContextInfo = khronosHeader.CL_SUCCESS ∧
    apiBuildAndLogFail.status .createCommandQueue = khronosHeader.CL_SUCCESS ∧
    apiBuildAndLogFail.status .createProgram = khronosHeader.CL_SUCCESS ∧
    apiBuildAndLogFail.status .buildProgram ≠ khronosHeader.CL_SUCCESS ∧
    (main khronosHeader apiBuildAndLogFail).1 = 5 ∧
    (main khronosHeader apiBuildAndLogFail).2.stdout = "clGetProgramBuildInfo faild.\n" ∧
    (main khronosHeader apiBuildAndLogFail).2.stderr
      = "clBuildProgram failed.\nProgram build faild\nInvalid value\n" ∧
    ¬ (">>> build log <<<\n".data <:+: (main khronosHeader apiBuildAndLogFail).2.stdout.data) ∧
    ¬ (">>> build log <<<\n".data <:+: (main khronosHeader apiBuildAndLogFail).2.stderr.data) ∧
    ¬ (">>> end of build log <<<\n".data
        <:+: (main khronosHeader apiBuildAndLogFail).2.stdout.data) ∧
    ¬ (">>> end of build log <<<\n".data
        <:+: (main khronosHeader apiBuildAndLogFail).2.stderr.data) := by
  decide

/-- C4, amended: when the first four steps succeed and the build returns a
non-success status, the exit code is 5; if the log query succeeds, standard
output is the log between the two delimiter lines; if the log query fails,
standard output is the line `clGetProgramBuildInfo faild.` and standard error
ends with the message of the query status. -/
theorem main_build_failure (hdr : CLHeader) (api : Api)
    (h1 : api.status .createContext = hdr.CL_SUCCESS)
    (h2 : api.status .getContextInfo = hdr.CL_SUCCESS)
    (h3 : api.status .createCommandQueue = hdr.CL_SUCCESS)
    (h4 : api.status .createProgram = hdr.CL_SUCCESS)
    (h5 : api.status .buildProgram ≠ hdr.CL_SUCCESS) :
    (main hdr api).1 = 5 ∧
    (api.logFetch.status = hdr.CL_SUCCESS →
      (main hdr api).2.stdout
        = ">>> build log <<<\n"
          ++ String.mk (cString (api.logFetch.buffer.set api.logFetch.size_ret NUL)) ++ "\n"
          ++ ">>> end of build log <<<\n") ∧
    (api.logFetch.status ≠ hdr.CL_SUCCESS →
      (main hdr api).2.stdout = "clGetProgramBuildInfo faild.\n" ∧
      (main hdr api).2.stderr
        = "clBuildProgram failed.\n" ++ printErrorText hdr (api.status .buildProgram)
          ++ printErrorText hdr api.logFetch.status) := by
  have hf : firstFailure hdr api = some .buildProgram := by
    simp [firstFailure, Step.programOrder, h1, h2, h3, h4, h5]
  rw [main_eq, hf]
  refine ⟨rfl, ?_, ?_⟩
  · intro hl
    exact (failureWorld_build_ok hdr api hl).2
  · intro hl
    exact ⟨(failureWorld_build_failed hdr api hl).2, (failureWorld_build_failed hdr api hl).1⟩

/-- Witness of C4, amended: the run in which the build fails and the log is
fetched. -/
theorem main_build_failure_witness :
    (main khronosHeader apiBuildFails).1 = 5 ∧
    (main khronosHeader apiBuildFails).2.stdout
      = ">>> build log <<<\n"
        ++ String.mk (cString (apiBuildFails.logFetch.buffer.set
            apiBuildFails.logFetch.size_ret NUL)) ++ "\n"
        ++ ">>> end of build log <<<\n" :=
  ⟨(main_build_failure khronosHeader apiBuildFails (by decide) (by decide) (by decide)
      (by decide) (by decide)).1,
   (main_build_failure khronosHeader apiBuildFails (by decide) (by decide) (by decide)
      (by decide) (by decide)).2.1 (by decide)⟩

/-- C7, counterexample: the build fails and the log is fetched; standard error
holds the diagnostic line and the message only, and the build-log block is on
standard output. -/
theorem build_log_block_not_on_stderr :
    (main khronosHeader apiBuildFails).1 = 5 ∧
    (main khronosHeader apiBuildFails).2.stderr
      = "clBuildProgram failed.\nProgram build faild\n" ∧
    ¬ (">>> build log <<<\n".data <:+: (main khronosHeader apiBuildFails).2.stderr.data) ∧
    ¬ (">>> end of build log <<<\n".data
        <:+: (main khronosHeader apiBuildFails).2.stderr.data) ∧
    (main khronosHeader apiBuildFails).2.stdout
      = ">>> build log <<<\neeeeeee\n>>> end of build log <<<\n" := by
  decide

/-- C7, amended: in every failing run standard error starts with one
diagnostic line for the failed call followed by the message `printError` maps
the failing status to.  For a step other than the build nothing else is
written to either stream.  For the build step the build-log block goes to
standard output when the log query succeeds; when the query fails, standard
output gets the line `clGetProgramBuildInfo faild.` and standard error gets,
in addition, the message of the query status. -/
theorem main_failure_streams (hdr : CLHeader) (api : Api)
    (h : (main hdr api).1 ≠ 0) :
    ∃ s : Step, firstFailure hdr api = some s ∧ api.status s ≠ hdr.CL_SUCCESS ∧
      (s.diagnostic.data.count '\n' = 1 ∧ s.diagnostic.data.getLast? = some '\n') ∧
      (s ≠ .buildProgram →
        (main hdr api).2.stderr = s.diagnostic ++ printErrorText hdr (api.status s) ∧
        (main hdr api).2.stdout = "") ∧
      (s = .buildProgram → api.logFetch.status = hdr.CL_SUCCESS →
        (main hdr api).2.stderr = s.diagnostic ++ printErrorText hdr (api.status s) ∧
        (main hdr api).2.stdout
          = ">>> build log <<<\n"
            ++ String.mk (cString (api.logFetch.buffer.set api.logFetch.size_ret NUL)) ++ "\n"
            ++ ">>> end of build log <<<\n") ∧
      (s = .buildProgram → api.logFetch.status ≠ hdr.CL_SUCCESS →
        (main hdr api).2.stderr
          = s.diagnostic ++ printErrorText hdr (api.status s)
            ++ printErrorText hdr api.logFetch.status ∧
        (main hdr api).2.stdout = "clGetProgramBuildInfo faild.\n") := by
  obtain ⟨s, hs, hm⟩ := firstFailure_of_exit_ne_zero hdr api h
  refine ⟨s, hs, firstFailure_some_status hdr api s hs, ?_, ?_, ?_, ?_⟩
  · cases s <;> decide
  · intro hne
    rw [hm]
    exact failureWorld_of_ne_build hdr api s hne
  · intro he hl
    subst he
    rw [hm]
    exact failureWorld_build_ok hdr api hl
  · intro he hl
    subst he
    rw [hm]
    exact failureWorld_build_failed hdr api hl

/-- Witness of C7, amended: the run in which the build and the log query fail. -/
theorem main_failure_streams_witness :
    (main khronosHeader apiBuildAndLogFail).1 ≠ 0 ∧
    ∃ s : Step, firstFailure khronosHeader apiBuildAndLogFail = some s ∧
      apiBuildAndLogFail.status s ≠ khronosHeader.CL_SUCCESS :=
  ⟨by decide,
   let ⟨s, hs, hne, _⟩ := main_failure_streams khronosHeader apiBuildAndLogFail (by decide)
   ⟨s, hs, hne⟩⟩

/-! ## Helper lemmas on binary32 rounding -/

theorem log2Fuel_spec (fuel : Nat) : ∀ n : Nat, n ≤ fuel → 1 ≤ n →
    2 ^ log2Fuel fuel n ≤ n ∧ n < 2 ^ (log2Fuel fuel n + 1) := by
  induction fuel with
  | zero => intro n h1 h2; omega
  | succ fuel ih =>
    intro n hf hn
    unfold log2Fuel
    by_cases h2 : n < 2
    · simp only [h2, if_true]
      omega
    · simp only [h2, if_false]
      obtain ⟨ha, hb⟩ := ih (n / 2) (by omega) (by omega)
      constructor
      · rw [pow_succ]; omega
      · rw [pow_succ]; omega

theorem ilog2_spec (n : Nat) (h : 1 ≤ n) : 2 ^ ilog2 n ≤ n ∧ n < 2 ^ (ilog2 n + 1) :=
  log2Fuel_spec n n le_rfl h

/-- The binary exponent brackets the fraction: `2 ^ e ≤ p / q < 2 ^ (e + 1)`. -/
theorem floorLog2_spec (p q : Nat) (hp : 0 < p) (hq : 0 < q) :
    (2 : ℚ) ^ (floorLog2 p q) ≤ (p : ℚ) / q ∧ (p : ℚ) / q < (2 : ℚ) ^ (floorLog2 p q + 1) := by
  have hqq : (0 : ℚ) < q := by exact_mod_cast hq
  have hpp : (0 : ℚ) < p := by exact_mod_cast hp
  unfold floorLog2
  by_cases hpq : q ≤ p
  · simp only [hpq, if_true]
    have hn : 1 ≤ p / q := (Nat.one_le_div_iff hq).2 hpq
    obtain ⟨ha, hb⟩ := ilog2_spec (p / q) hn
    have h1 : q * 2 ^ ilog2 (p / q) ≤ p :=
      le_trans (Nat.mul_le_mul_left q ha) (Nat.mul_div_le p q)
    have h2 : p < q * 2 ^ (ilog2 (p / q) + 1) := by
      have := (Nat.div_lt_iff_lt_mul hq).1 hb
      rwa [Nat.mul_comm] at this
    have h1q : (q : ℚ) * 2 ^ ilog2 (p / q) ≤ p := by exact_mod_cast h1
    have h2q : (p : ℚ) < q * 2 ^ (ilog2 (p / q) + 1) := by exact_mod_cast h2
    constructor
    · rw [zpow_natCast, le_div_iff₀ hqq]
      linarith
    · rw [show ((ilog2 (p / q) : ℤ) + 1) = ((ilog2 (p / q) + 1 : ℕ) : ℤ) by push_cast; ring,
        zpow_natCast, div_lt_iff₀ hqq]
      linarith
  · simp only [hpq, if_false]
    have hlt : p < q := by omega
    have hm : 1 ≤ (q - 1) / p := (Nat.one_le_div_iff hp).2 (by omega)
    obtain ⟨ha, hb⟩ := ilog2_spec ((q - 1) / p) hm
    have h1 : p * 2 ^ ilog2 ((q - 1) / p) < q := by
      have : p * 2 ^ ilog2 ((q - 1) / p) ≤ p * ((q - 1) / p) := Nat.mul_le_mul_left p ha
      have := le_trans this (Nat.mul_div_le (q - 1) p)
      omega
    have h2 : q ≤ p * 2 ^ (ilog2 ((q - 1) / p) + 1) := by
      have h3 : (q - 1) / p + 1 ≤ 2 ^ (ilog2 ((q - 1) / p) + 1) := hb
      have h4 : q - 1 < p * ((q - 1) / p + 1) := Nat.lt_mul_div_succ (q - 1) hp
      have h5 : p * ((q - 1) / p + 1) ≤ p * 2 ^ (ilog2 ((q - 1) / p) + 1) :=
        Nat.mul_le_mul_left p h3
      omega
    have h1q : (p : ℚ) * 2 ^ ilog2 ((q - 1) / p) < q := by exact_mod_cast h1
    have h2q : (q : ℚ) ≤ p * 2 ^ (ilog2 ((q - 1) / p) + 1) := by exact_mod_cast h2
    have hpow1 : (0 : ℚ) < 2 ^ (ilog2 ((q - 1) / p) + 1) := by positivity
    have hpow0 : (0 : ℚ) < 2 ^ ilog2 ((q - 1) / p) := by positivity
    constructor
    · rw [show (-((ilog2 ((q - 1) / p) : ℤ) + 1)) = -((ilog2 ((q - 1) / p) + 1 : ℕ) : ℤ) by
          push_cast; ring, zpow_neg, zpow_natCast, le_div_iff₀ hqq, inv_mul_le_iff₀ hpow1]
      linarith
    · rw [show (-((ilog2 ((q - 1) / p) : ℤ) + 1) + 1) = -((ilog2 ((q - 1) / p) : ℕ) : ℤ) by
          ring, zpow_neg, zpow_natCast, div_lt_iff₀ hqq, lt_inv_mul_iff₀ hpow0]
      linarith

end OpenCLTest2
